import Mathlib

/-!
Verification of the homework status bot (`homework.py`).

The Python module is shallowly embedded: every function of the source file
(`check_tokens`, `send_message`, `get_api_answer`, `check_response`,
`parse_status`, and the body of `main`'s `while` loop) becomes a Lean
definition over an explicit model of Python values (`Json`), Python
exceptions (`PyError`) and the ambient environment (HTTP outcomes, wall
clock, Telegram send outcomes).  Exceptions are modelled with `Except`:
a Python function that can raise returns `Except PyError α`.
-/

/-- Python/JSON values as they appear in this program.  `null` doubles as
Python `None` (in CPython the decoded JSON `null` *is* `None`).  Numbers are
modelled as integers: the program only touches integer timestamps and never
does arithmetic on payload numbers. -/
inductive Json where
  | null : Json
  | bool (b : Bool) : Json
  | num (n : Int) : Json
  | str (s : String) : Json
  | arr (elems : List Json) : Json
  | obj (fields : List (String × Json)) : Json

/-- Python exceptions raised or caught by the program. -/
inductive PyError where
  | typeError (msg : String) : PyError
  | keyError (msg : String) : PyError
  | valueError (msg : String) : PyError
  | attributeError (msg : String) : PyError
  | genericError (msg : String) : PyError
deriving DecidableEq, Repr

/-- A single quote character, used by Python `repr`. -/
def pyQuote : String := String.singleton (Char.ofNat 39)

/-- `str(e)` for a Python exception.  CPython renders `str(KeyError(m))`
as the `repr` of the argument, i.e. with surrounding single quotes; the
other exception classes render their message verbatim. -/
def pyErrStr : PyError → String
  | .typeError m => m
  | .keyError m => pyQuote ++ m ++ pyQuote
  | .valueError m => m
  | .attributeError m => m
  | .genericError m => m

/-- Python type name of a value, as used in `AttributeError` messages. -/
def Json.pyTypeName : Json → String
  | .null => "NoneType"
  | .bool _ => "bool"
  | .num _ => "int"
  | .str _ => "str"
  | .arr _ => "list"
  | .obj _ => "dict"

mutual
/-- Python `repr` of a value (scalars and containers). -/
def Json.pyRepr : Json → String
  | .null => "None"
  | .bool true => "True"
  | .bool false => "False"
  | .num n => toString n
  | .str s => pyQuote ++ s ++ pyQuote
  | .arr xs => "[" ++ String.intercalate ", " (pyReprArr xs) ++ "]"
  | .obj fs => "\x7b" ++ String.intercalate ", " (pyReprObj fs) ++ "\x7d"

/-- `repr` of each element of a Python list. -/
def pyReprArr : List Json → List String
  | [] => []
  | x :: xs => x.pyRepr :: pyReprArr xs

/-- `repr` of each `key: value` entry of a Python dict. -/
def pyReprObj : List (String × Json) → List String
  | [] => []
  | (k, v) :: fs => (pyQuote ++ k ++ pyQuote ++ ": " ++ v.pyRepr) :: pyReprObj fs
end

/-- Python `str` of a value, as used by f-string interpolation: a string
renders verbatim, every other value renders as its `repr`. -/
def Json.pyStr : Json → String
  | .str s => s
  | j => j.pyRepr

/-- `isinstance(x, dict)`. -/
def Json.isDict : Json → Bool
  | .obj _ => true
  | _ => false

/-- `isinstance(x, list)`. -/
def Json.isList : Json → Bool
  | .arr _ => true
  | _ => false

/-- `x is None`. -/
def Json.isNull : Json → Bool
  | .null => true
  | _ => false

/-- Python `d.get(k)`: the value stored under `k`, or `None` when the key
is absent.  A stored JSON `null` and an absent key are indistinguishable,
exactly as in the Python source. -/
def pyGet (fields : List (String × Json)) (k : String) : Json :=
  match fields.lookup k with
  | some v => v
  | none => Json.null

/-- `RETRY_PERIOD = 600` (seconds slept between cycles). -/
def RETRY_PERIOD : Nat := 600

/-- `ENDPOINT` constant from the source. -/
def ENDPOINT : String := "https://practicum.yandex.ru/api/user_api/homework_statuses/"

/-- `HOMEWORK_VERDICTS`: the status catalog mapping the three recognized
status codes to their verdict texts. -/
def HOMEWORK_VERDICTS : List (String × String) :=
  [("approved", "Работа проверена: ревьюеру всё понравилось. Ура!"),
   ("reviewing", "Работа взята на проверку ревьюером."),
   ("rejected", "Работа проверена: у ревьюера есть замечания.")]

/-- The three environment secrets.  `os.getenv` yields `None` when a
variable is absent, hence `Option String`. -/
structure Credentials where
  practicum_token : Option String
  telegram_token : Option String
  telegram_chat_id : Option String

/-- Python truthiness of an optional string: `not x` is true exactly when
`x` is `None` or the empty string. -/
def pyTruthy : Option String → Bool
  | none => false
  | some s => !s.isEmpty

/-- The `missing_tokens` list built by `check_tokens`. -/
def missing_tokens (c : Credentials) : List String :=
  (if !pyTruthy c.practicum_token then ["PRACTICUM_TOKEN"] else []) ++
  (if !pyTruthy c.telegram_token then ["TELEGRAM_TOKEN"] else []) ++
  (if !pyTruthy c.telegram_chat_id then ["TELEGRAM_CHAT_ID"] else [])

/-- `check_tokens()`: true iff no secret is missing or empty. -/
def check_tokens (c : Credentials) : Bool :=
  (missing_tokens c).isEmpty

/-- Outcome of the underlying `bot.send_message` primitive: either it
succeeds or it raises some exception. -/
inductive SendOutcome where
  | ok : SendOutcome
  | raises (e : PyError) : SendOutcome

/-- The `bot.send_message(TELEGRAM_CHAT_ID, message)` call, which may
raise. -/
def bot_send (outcome : SendOutcome) : Except PyError Unit :=
  match outcome with
  | .ok => .ok ()
  | .raises e => .error e

/-- `send_message(bot, message)`: attempts the send, catches *any*
exception, and returns normally either way.  The returned list models the
log records emitted (`logger.debug` on success, `logger.error` on
failure); the `Except` result type records whether an exception escapes
to the caller — it never does. -/
def send_message (outcome : SendOutcome) (message : String) : Except PyError (List String) :=
  match bot_send outcome with
  | .ok () => .ok ["Бот отправил сообщение: \"" ++ message ++ "\""]
  | .error e => .ok ["Ошибка при отправке сообщения в Telegram: " ++ pyErrStr e]

/-- What the HTTP layer did for one `requests.get` call: either a response
arrived (with a status code and a decoded JSON body), or the request
raised a `requests.RequestException` (timeout, DNS failure, connection
reset, ...). -/
inductive HttpOutcome where
  | reply (status_code : Nat) (body : Json) : HttpOutcome
  | transportError (msg : String) : HttpOutcome

/-- `get_api_answer(timestamp)`.  A non-200 reply raises a plain
`Exception` (which is *not* a `requests.RequestException`, so the
`except` clause does not catch it and it propagates to the caller).  A
transport failure is caught and the function returns `None` (here:
`Json.null`, since decoded JSON `null` and Python `None` coincide).  On a
200 reply it returns the decoded body. -/
def get_api_answer (outcome : HttpOutcome) : Except PyError Json :=
  match outcome with
  | .reply status_code body =>
      if status_code ≠ 200 then
        .error (.genericError ("Ошибка API: " ++ toString status_code))
      else
        .ok body
  | .transportError _ => .ok .null

/-- The `logger.error` records emitted inside `get_api_answer`. -/
def get_api_answer_logs (outcome : HttpOutcome) : List String :=
  match outcome with
  | .reply status_code _ =>
      if status_code ≠ 200 then
        ["Эндпоинт " ++ ENDPOINT ++ " недоступен. Код ответа API: " ++ toString status_code]
      else []
  | .transportError m => ["Ошибка при запросе к API: " ++ m]

/-- `check_response(response)`: shape-checks the payload and extracts the
`homeworks` list, raising `TypeError`/`KeyError` otherwise. -/
def check_response (response : Json) : Except PyError (List Json) :=
  match response with
  | .obj fields =>
      match fields.lookup "homeworks" with
      | none => .error (.keyError "Отсутствует ключ \"homeworks\".")
      | some v =>
          match v with
          | .arr homeworks => .ok homeworks
          | _ => .error (.typeError "Ключ \"homeworks\" должен быть списком.")
  | _ => .error (.typeError "Ответ API должен быть словарём.")

/-- `parse_status(homework)`: validates `homework_name` (first) and
`status` (second) and renders the notification text.  Calling `.get` on a
non-dict raises `AttributeError`, as in Python.  The membership test
`status not in HOMEWORK_VERDICTS` itself raises
`TypeError: unhashable type` when the status value is an (unhashable)
list or dict; every hashable non-key value (None, bool, int, or an
unrecognized string) falls through to the `ValueError`. -/
def parse_status (homework : Json) : Except PyError String :=
  match homework with
  | .obj fields =>
      let homework_name := pyGet fields "homework_name"
      if homework_name.isNull then
        .error (.keyError "Отсутствует ключ \"homework_name\".")
      else
        let status := pyGet fields "status"
        match status with
        | .str s =>
            match HOMEWORK_VERDICTS.lookup s with
            | some verdict =>
                .ok ("Изменился статус проверки работы \"" ++ homework_name.pyStr
                      ++ "\". " ++ verdict)
            | none => .error (.valueError ("Неизвестный статус: " ++ status.pyStr))
        | .arr _ => .error (.typeError
            ("unhashable type: " ++ pyQuote ++ "list" ++ pyQuote))
        | .obj _ => .error (.typeError
            ("unhashable type: " ++ pyQuote ++ "dict" ++ pyQuote))
        | _ => .error (.valueError ("Неизвестный статус: " ++ status.pyStr))
  | other => .error (.attributeError (pyQuote ++ other.pyTypeName ++ pyQuote
      ++ " object has no attribute " ++ pyQuote ++ "get" ++ pyQuote))

/-- The loop-owned mutable state of `main`: the `timestamp` cursor and the
module-level `last_error` marker (initially `None`). -/
structure LoopState where
  timestamp : Nat
  last_error : Option String
deriving DecidableEq, Repr

/-- The environment one iteration of the `while` loop runs against: the
outcome of its single HTTP request and the wall-clock value
`int(time.time())` would return at line `timestamp = int(time.time())`. -/
structure CycleEnv where
  http : HttpOutcome
  now : Nat

/-- What one cycle does, observably: the new cursor value, the new
`last_error` marker, the messages passed to `send_message` (in order), and
the number of seconds slept at the end of the cycle. -/
structure CycleResult where
  timestamp : Nat
  last_error : Option String
  sent : List String
  slept : Nat
deriving DecidableEq, Repr

/-- The `for homework in homeworks` loop in `main`: each record is parsed
and its message sent immediately; the first `parse_status` failure aborts
the rest of the batch.  Returns the messages sent before the failure and
the exception, if any. -/
def process_homeworks : List Json → List String × Option PyError
  | [] => ([], none)
  | h :: hs =>
      match parse_status h with
      | .error e => ([], some e)
      | .ok m =>
          match process_homeworks hs with
          | (ms, e) => (m :: ms, e)

/-- How the `try` block of one loop iteration ends:
`fetchFailed` — `get_api_answer` returned `None` and the `continue`
branch ran; `errored` — an exception reached the `except` clause, after
the listed messages had already been sent; `succeeded` — the whole body
ran, sending the listed messages. -/
inductive CycleBody where
  | fetchFailed : CycleBody
  | errored (sent : List String) (e : PyError) : CycleBody
  | succeeded (sent : List String) : CycleBody
deriving DecidableEq, Repr

/-- The `try` block of one iteration of `main`'s `while` loop. -/
def cycle_body (env : CycleEnv) : CycleBody :=
  match get_api_answer env.http with
  | .error e => .errored [] e
  | .ok response =>
      if response.isNull then .fetchFailed
      else
        match check_response response with
        | .error e => .errored [] e
        | .ok homeworks =>
            match process_homeworks homeworks with
            | (msgs, some e) => .errored msgs e
            | (msgs, none) => .succeeded msgs

/-- The `except Exception` clause of `main`: notify unless the error's
string form equals the `last_error` marker, then update the marker; the
cursor is left untouched and the cycle ends with the fixed sleep. -/
def handle_error (st : LoopState) (alreadySent : List String) (e : PyError) : CycleResult :=
  let message := "Сбой в работе программы: " ++ pyErrStr e
  if st.last_error = some (pyErrStr e) then
    { timestamp := st.timestamp, last_error := st.last_error,
      sent := alreadySent, slept := RETRY_PERIOD }
  else
    { timestamp := st.timestamp, last_error := some (pyErrStr e),
      sent := alreadySent ++ [message], slept := RETRY_PERIOD }

/-- One full iteration of the `while` loop: run the `try` block, dispatch
on how it ended.  On the `continue` branch and on an exception the cursor
is unchanged; on success it advances to the current wall clock.  Every
branch sleeps `RETRY_PERIOD` seconds. -/
def cycle (st : LoopState) (env : CycleEnv) : CycleResult :=
  match cycle_body env with
  | .fetchFailed =>
      { timestamp := st.timestamp, last_error := st.last_error,
        sent := [], slept := RETRY_PERIOD }
  | .errored msgs e => handle_error st msgs e
  | .succeeded msgs =>
      { timestamp := env.now, last_error := st.last_error,
        sent := msgs, slept := RETRY_PERIOD }

/-- The exception (if any) that reaches the `except` clause in the cycle
run against `env`. -/
def cycleErrorOf (env : CycleEnv) : Option PyError :=
  match cycle_body env with
  | .errored _ e => some e
  | _ => none

/-- The per-record status messages sent during the cycle run against
`env` (excluding the error notification, if one is sent). -/
def parseSentOf (env : CycleEnv) : List String :=
  match cycle_body env with
  | .fetchFailed => []
  | .errored msgs _ => msgs
  | .succeeded msgs => msgs

/-- True iff the whole `try` block of the cycle runs to completion. -/
def cycle_succeeds (env : CycleEnv) : Bool :=
  match cycle_body env with
  | .succeeded _ => true
  | _ => false

/-- Run the loop for as many iterations as there are environments,
threading the cursor and the `last_error` marker.  The real loop is
infinite; a finite environment list models any finite prefix of it, and
the loop never exits early: one `CycleResult` is produced per
environment. -/
def run_cycles (st : LoopState) : List CycleEnv → LoopState × List CycleResult
  | [] => (st, [])
  | env :: envs =>
      let r := cycle st env
      match run_cycles ⟨r.timestamp, r.last_error⟩ envs with
      | (stFinal, rs) => (stFinal, r :: rs)

/-- `main()`: if `check_tokens()` fails, return immediately — the bot is
never constructed, the loop is never entered and no HTTP request is made
(result `none`).  Otherwise enter the loop with cursor `startTime`
(`int(time.time())` at startup) and marker `None`.  Each produced
`CycleResult` corresponds to exactly one HTTP request. -/
def run_main (c : Credentials) (startTime : Nat) (envs : List CycleEnv) :
    Option (LoopState × List CycleResult) :=
  if check_tokens c then some (run_cycles ⟨startTime, none⟩ envs) else none

/-- Claim C5: for every input payload, `check_response` fails with a
not-an-object error (`TypeError`) when the payload is not a mapping,
with a missing-field error (`KeyError`) when the key `homeworks` is
absent, with a wrong-type error (`TypeError`) when the value under
`homeworks` is not a list, and otherwise returns the list under
`homeworks` unchanged, including when that list is empty. -/
theorem check_response_spec (response : Json) :
    (response.isDict = false →
      check_response response = .error (.typeError "Ответ API должен быть словарём."))
    ∧ (∀ fields, response = .obj fields → fields.lookup "homeworks" = none →
      check_response response = .error (.keyError "Отсутствует ключ \"homeworks\"."))
    ∧ (∀ fields v, response = .obj fields → fields.lookup "homeworks" = some v →
        v.isList = false →
      check_response response = .error (.typeError "Ключ \"homeworks\" должен быть списком."))
    ∧ (∀ fields homeworks, response = .obj fields →
        fields.lookup "homeworks" = some (.arr homeworks) →
      check_response response = .ok homeworks) := by
  refine ⟨?_, ?_, ?_, ?_⟩
  · intro hnd
    cases response <;> simp_all [Json.isDict, check_response]
  · rintro fields rfl hnone
    simp [check_response, hnone]
  · rintro fields v rfl hsome hnl
    cases v <;> simp_all [Json.isList, check_response]
  · rintro fields homeworks rfl hsome
    simp [check_response, hsome]

/-- Witness for C5: all four branches of `check_response_spec`,
instantiated at concrete payloads (a non-dict, a dict without
`homeworks`, a dict with a non-list `homeworks`, and a dict with an
empty `homeworks` list). -/
theorem check_response_spec_witness :
    check_response .null = .error (.typeError "Ответ API должен быть словарём.")
    ∧ check_response (.obj []) = .error (.keyError "Отсутствует ключ \"homeworks\".")
    ∧ check_response (.obj [("homeworks", .num 3)])
        = .error (.typeError "Ключ \"homeworks\" должен быть списком.")
    ∧ check_response (.obj [("homeworks", .arr [])]) = .ok [] :=
  ⟨(check_response_spec .null).1 rfl,
   (check_response_spec (.obj [])).2.1 [] rfl rfl,
   (check_response_spec (.obj [("homeworks", .num 3)])).2.2.1
     [("homeworks", .num 3)] (.num 3) rfl rfl rfl,
   (check_response_spec (.obj [("homeworks", .arr [])])).2.2.2
     [("homeworks", .arr [])] [] rfl rfl⟩

/-- Claim C6: for every homework record with a non-null `homework_name`
and a status in the recognized catalog, `parse_status` returns the
rendered message with the verdict looked up from `HOMEWORK_VERDICTS`;
in particular the record with name `hw1` and status `approved` yields
exactly the expected Russian message. -/
theorem parse_status_success (fields : List (String × Json)) (s verdict : String)
    (hname : (pyGet fields "homework_name").isNull = false)
    (hstatus : pyGet fields "status" = .str s)
    (hverdict : HOMEWORK_VERDICTS.lookup s = some verdict) :
    parse_status (.obj fields) =
      .ok ("Изменился статус проверки работы \"" ++ (pyGet fields "homework_name").pyStr
            ++ "\". " ++ verdict)
    ∧ parse_status (.obj [("homework_name", .str "hw1"), ("status", .str "approved")]) =
      .ok "Изменился статус проверки работы \"hw1\". Работа проверена: ревьюеру всё понравилось. Ура!" := by
  constructor
  · simp [parse_status, hname, hstatus, hverdict]
  · rfl

/-- Witness for C6: `parse_status_success` applied to the record with
`homework_name = "hw1"` and `status = "approved"`. -/
theorem parse_status_success_witness :
    parse_status (.obj [("homework_name", .str "hw1"), ("status", .str "approved")]) =
      .ok "Изменился статус проверки работы \"hw1\". Работа проверена: ревьюеру всё понравилось. Ура!" :=
  (parse_status_success [("homework_name", .str "hw1"), ("status", .str "approved")]
    "approved" "Работа проверена: ревьюеру всё понравилось. Ура!" rfl rfl rfl).2

/-- The membership test `status in HOMEWORK_VERDICTS` from `parse_status`:
true exactly when the value is a string that is a key of the catalog. -/
def statusRecognized (v : Json) : Bool :=
  match v with
  | .str s => (HOMEWORK_VERDICTS.lookup s).isSome
  | _ => false

/-- Whether a Python value is hashable and hence usable in the dict
membership test `status not in HOMEWORK_VERDICTS`: `None`, booleans,
numbers and strings are; lists and dicts are not (the test raises
`TypeError: unhashable type` on them). -/
def Json.pyHashable : Json → Bool
  | .arr _ => false
  | .obj _ => false
  | _ => true

/-- Counterexample to C7 as stated: the record `(status = "bogus")` (no
`homework_name`) has a status outside the recognized catalog, yet
`parse_status` fails with the missing-name `KeyError`, not with the
claimed unknown-status `ValueError` — the name check runs first. -/
theorem parse_status_unknown_counterexample :
    parse_status (.obj [("status", .str "bogus")]) =
      .error (.keyError "Отсутствует ключ \"homework_name\".")
    ∧ (Except.error (PyError.keyError "Отсутствует ключ \"homework_name\".") : Except PyError String) ≠
      Except.error (PyError.valueError ("Неизвестный статус: " ++ Json.pyStr (.str "bogus"))) := by
  constructor
  · rfl
  · simp

/-- Claim C7 (amended): for every homework record with a present,
non-null `homework_name` whose status is a hashable value (absent/null,
boolean, number, or string) that is not one of the three catalog keys,
`parse_status` fails with the unknown-status `ValueError` carrying the
offending value (an unhashable list- or dict-valued status instead makes
the membership test itself raise `TypeError: unhashable type`); in
particular the record with name `hw1` and status `bogus` fails with the
message naming `bogus`. -/
theorem parse_status_unknown_status (fields : List (String × Json))
    (hname : (pyGet fields "homework_name").isNull = false)
    (hhash : (pyGet fields "status").pyHashable = true)
    (hstatus : statusRecognized (pyGet fields "status") = false) :
    parse_status (.obj fields) =
      .error (.valueError ("Неизвестный статус: " ++ (pyGet fields "status").pyStr))
    ∧ parse_status (.obj [("homework_name", .str "hw1"), ("status", .str "bogus")]) =
      .error (.valueError "Неизвестный статус: bogus") := by
  refine ⟨?_, rfl⟩
  cases hv : pyGet fields "status"
  case str s =>
    rw [hv] at hstatus
    simp only [statusRecognized] at hstatus
    cases hl : HOMEWORK_VERDICTS.lookup s with
    | none => simp [parse_status, hname, hv, hl]
    | some verdict => rw [hl] at hstatus; simp at hstatus
  case arr elems => rw [hv] at hhash; simp [Json.pyHashable] at hhash
  case obj fs => rw [hv] at hhash; simp [Json.pyHashable] at hhash
  all_goals simp [parse_status, hname, hv]

/-- Witness for C7 (amended): `parse_status_unknown_status` applied to
the record with name `hw1` and unrecognized status `bogus`. -/
theorem parse_status_unknown_status_witness :
    parse_status (.obj [("homework_name", .str "hw1"), ("status", .str "bogus")]) =
      .error (.valueError "Неизвестный статус: bogus") :=
  (parse_status_unknown_status [("homework_name", .str "hw1"), ("status", .str "bogus")]
    rfl rfl rfl).2

/-- Claim C10: `parse_status` validates `homework_name` before `status`:
whenever `homework_name` is absent or null it fails with the
missing-name `KeyError` regardless of the `status` field, so the empty
record (missing both fields) reports the missing name, never an unknown
status. -/
theorem parse_status_name_checked_first (fields : List (String × Json))
    (hname : (pyGet fields "homework_name").isNull = true) :
    parse_status (.obj fields) = .error (.keyError "Отсутствует ключ \"homework_name\".")
    ∧ parse_status (.obj []) = .error (.keyError "Отсутствует ключ \"homework_name\".") := by
  refine ⟨?_, rfl⟩
  simp [parse_status, hname]

/-- Witness for C10: `parse_status_name_checked_first` applied to a
record that carries a well-formed `status` but a null `homework_name`. -/
theorem parse_status_name_checked_first_witness :
    parse_status (.obj [("homework_name", .null), ("status", .str "approved")]) =
      .error (.keyError "Отсутствует ключ \"homework_name\".") :=
  (parse_status_name_checked_first [("homework_name", .null), ("status", .str "approved")]
    rfl).1

/-- Claim C9: for every message and every outcome of the underlying
Telegram send primitive, `send_message` returns normally — it never
propagates an exception to its caller — and when the primitive raises it
logs the failure instead. -/
theorem send_message_never_raises (outcome : SendOutcome) (message : String) :
    (∃ logs : List String, send_message outcome message = Except.ok logs)
    ∧ (∀ e, outcome = SendOutcome.raises e →
        send_message outcome message =
          Except.ok ["Ошибка при отправке сообщения в Telegram: " ++ pyErrStr e]) := by
  cases outcome with
  | ok => exact ⟨⟨_, rfl⟩, by rintro e ⟨⟩⟩
  | raises e => exact ⟨⟨_, rfl⟩, by rintro e' ⟨rfl⟩; rfl⟩

/-- Witness for C9: `send_message_never_raises` applied to a send
attempt whose underlying primitive raises. -/
theorem send_message_never_raises_witness :
    send_message (.raises (.genericError "boom")) "hi" =
      Except.ok ["Ошибка при отправке сообщения в Telegram: boom"] :=
  (send_message_never_raises (.raises (.genericError "boom")) "hi").2
    (.genericError "boom") rfl

/-- If a cycle raises into the `except` clause, the `try` block ended in
`errored` with exactly the messages `parseSentOf` reports. -/
theorem cycleErrorOf_some {env : CycleEnv} {e : PyError} (h : cycleErrorOf env = some e) :
    ∃ ms, cycle_body env = CycleBody.errored ms e ∧ parseSentOf env = ms := by
  unfold cycleErrorOf at h
  cases hb : cycle_body env with
  | fetchFailed => rw [hb] at h; cases h
  | succeeded ms => rw [hb] at h; cases h
  | errored ms e0 =>
      rw [hb] at h
      simp at h
      subst h
      exact ⟨ms, rfl, by simp [parseSentOf, hb]⟩

/-- A cycle in which no exception reaches the `except` clause leaves the
`last_error` marker untouched. -/
theorem cycle_no_error_marker {env : CycleEnv} (st : LoopState)
    (h : cycleErrorOf env = none) : (cycle st env).last_error = st.last_error := by
  unfold cycleErrorOf at h
  cases hb : cycle_body env with
  | fetchFailed => simp [cycle, hb]
  | succeeded ms => simp [cycle, hb]
  | errored ms e0 => rw [hb] at h; cases h

/-- `except` clause, fresh error: notification appended, marker updated. -/
theorem handle_error_new (st : LoopState) (ms : List String) (e : PyError)
    (h : st.last_error ≠ some (pyErrStr e)) :
    handle_error st ms e =
      { timestamp := st.timestamp, last_error := some (pyErrStr e),
        sent := ms ++ ["Сбой в работе программы: " ++ pyErrStr e],
        slept := RETRY_PERIOD } := by
  simp only [handle_error]
  rw [if_neg h]

/-- `except` clause, repeated error: no notification, marker unchanged. -/
theorem handle_error_dup (st : LoopState) (ms : List String) (e : PyError)
    (h : st.last_error = some (pyErrStr e)) :
    handle_error st ms e =
      { timestamp := st.timestamp, last_error := st.last_error,
        sent := ms, slept := RETRY_PERIOD } := by
  simp only [handle_error]
  rw [if_pos h]

/-- Claim C8: Python truthiness of a secret fails exactly on absent or
empty strings; if any of the three secrets is absent or empty,
`check_tokens` fails and `main` returns before entering the loop (no
cycle runs, hence no network call is ever made); with all three
non-empty the check passes and the loop starts. -/
theorem check_tokens_gates_loop (c : Credentials) (startTime : Nat) (envs : List CycleEnv) :
    (∀ t : Option String, pyTruthy t = false ↔ (t = none ∨ t = some ""))
    ∧ ((pyTruthy c.practicum_token = false ∨ pyTruthy c.telegram_token = false
          ∨ pyTruthy c.telegram_chat_id = false) →
        check_tokens c = false ∧ run_main c startTime envs = none)
    ∧ (pyTruthy c.practicum_token = true → pyTruthy c.telegram_token = true →
        pyTruthy c.telegram_chat_id = true →
        check_tokens c = true
        ∧ run_main c startTime envs = some (run_cycles ⟨startTime, none⟩ envs)) := by
  refine ⟨?_, ?_, ?_⟩
  · intro t
    cases t with
    | none => simp [pyTruthy]
    | some s => simp [pyTruthy, String.isEmpty_iff]
  · intro hmiss
    have hct : check_tokens c = false := by
      rcases hmiss with h | h | h <;> simp [check_tokens, missing_tokens, h]
    exact ⟨hct, by simp [run_main, hct]⟩
  · intro h1 h2 h3
    have hct : check_tokens c = true := by
      simp [check_tokens, missing_tokens, h1, h2, h3]
    exact ⟨hct, by simp [run_main, hct]⟩

/-- Witness for C8: with the messaging token absent, `main` exits before
the loop; with all three secrets non-empty, the loop starts with the
given start time and an empty error marker. -/
theorem check_tokens_gates_loop_witness :
    run_main ⟨some "a", none, some "b"⟩ 5 [⟨.transportError "x", 6⟩] = none
    ∧ run_main ⟨some "a", some "b", some "c"⟩ 5 [] = some (⟨5, none⟩, []) :=
  ⟨((check_tokens_gates_loop ⟨some "a", none, some "b"⟩ 5
      [⟨.transportError "x", 6⟩]).2.1 (Or.inr (Or.inl rfl))).2,
   ((check_tokens_gates_loop ⟨some "a", some "b", some "c"⟩ 5 []).2.2
      rfl rfl rfl).2⟩

/-- Claim C4: a transport-level failure of the fetch is caught inside
`get_api_answer` (which logs it and returns `None` rather than raising);
the cycle then just sleeps the fixed interval: the cursor is unchanged,
nothing is sent, the `last_error` marker is untouched, and the loop goes
on to process every subsequent cycle (it never terminates early). -/
theorem transport_error_cycle (st : LoopState) (m : String) (now : Nat) :
    get_api_answer (.transportError m) = .ok .null
    ∧ get_api_answer_logs (.transportError m) = ["Ошибка при запросе к API: " ++ m]
    ∧ cycle st ⟨.transportError m, now⟩ =
        { timestamp := st.timestamp, last_error := st.last_error,
          sent := [], slept := RETRY_PERIOD }
    ∧ (∀ envs : List CycleEnv, ((run_cycles st envs).2).length = envs.length) := by
  refine ⟨rfl, rfl, rfl, ?_⟩
  intro envs
  induction envs generalizing st with
  | nil => rfl
  | cons env envs ih => simp [run_cycles, ih]

/-- Counterexample to C2 as stated: a cycle whose fetch fails at the
transport level sleeps the fixed interval but does *not* advance the
cursor — it stays at the old value 100 instead of the current wall-clock
value 200 — so not every cycle ends by advancing the cursor. -/
theorem cycle_advance_counterexample :
    (cycle ⟨100, none⟩ ⟨.transportError "boom", 200⟩).timestamp = 100
    ∧ (100 : Nat) ≠ 200
    ∧ (cycle ⟨100, none⟩ ⟨.transportError "boom", 200⟩).slept = RETRY_PERIOD := by
  refine ⟨rfl, by decide, rfl⟩

/-- Claim C2 (amended): every cycle ends by sleeping the fixed retry
interval regardless of outcome, but the cursor advances (to the current
wall clock) only on cycles whose whole `try` block runs to completion;
on fetch-error, validation-error and format-error cycles it is left
unchanged. -/
theorem cycle_sleep_and_advance (st : LoopState) (env : CycleEnv) :
    (cycle st env).slept = RETRY_PERIOD
    ∧ (cycle st env).timestamp = (if cycle_succeeds env then env.now else st.timestamp) := by
  cases hb : cycle_body env with
  | fetchFailed => simp [cycle, cycle_succeeds, hb]
  | succeeded msgs => simp [cycle, cycle_succeeds, hb]
  | errored msgs e =>
      simp only [cycle, cycle_succeeds, hb, handle_error]
      constructor
      · split <;> rfl
      · split <;> rfl

/-- Counterexample to C1 as stated: on a 404 reply `get_api_answer`
*does* raise (a plain `Exception`, which its `except
requests.RequestException` clause does not catch), and the cycle *does*
send an error notification the first time. -/
theorem fetch_no_raise_counterexample :
    get_api_answer (.reply 404 .null) = .error (.genericError "Ошибка API: 404")
    ∧ (cycle ⟨100, none⟩ ⟨.reply 404 .null, 200⟩).sent =
        ["Сбой в работе программы: Ошибка API: 404"] := by
  exact ⟨rfl, rfl⟩

/-- Claim C1 (amended): on every non-200 reply `get_api_answer` raises a
plain `Exception` to its caller; the loop's cycle-level handler catches
it, leaves the cursor unchanged, sleeps the fixed interval, sends a
single error notification when the error text differs from the
`last_error` marker, and sends nothing when it matches the marker. -/
theorem bad_status_cycle (st : LoopState) (code : Nat) (body : Json) (now : Nat)
    (hcode : code ≠ 200) :
    get_api_answer (.reply code body) =
      .error (.genericError ("Ошибка API: " ++ toString code))
    ∧ (cycle st ⟨.reply code body, now⟩).timestamp = st.timestamp
    ∧ (cycle st ⟨.reply code body, now⟩).slept = RETRY_PERIOD
    ∧ (st.last_error ≠ some ("Ошибка API: " ++ toString code) →
        (cycle st ⟨.reply code body, now⟩).sent =
          ["Сбой в работе программы: " ++ ("Ошибка API: " ++ toString code)]
        ∧ (cycle st ⟨.reply code body, now⟩).last_error =
            some ("Ошибка API: " ++ toString code))
    ∧ (st.last_error = some ("Ошибка API: " ++ toString code) →
        (cycle st ⟨.reply code body, now⟩).sent = []
        ∧ (cycle st ⟨.reply code body, now⟩).last_error = st.last_error) := by
  have hga : get_api_answer (.reply code body) =
      .error (.genericError ("Ошибка API: " ++ toString code)) := by
    simp [get_api_answer, hcode]
  have hb : cycle_body ⟨.reply code body, now⟩ =
      .errored [] (.genericError ("Ошибка API: " ++ toString code)) := by
    simp [cycle_body, hga]
  have hc : cycle st ⟨.reply code body, now⟩ =
      handle_error st [] (.genericError ("Ошибка API: " ++ toString code)) := by
    simp [cycle, hb]
  refine ⟨hga, ?_, ?_, ?_, ?_⟩
  · rw [hc]; simp only [handle_error]; split <;> rfl
  · rw [hc]; simp only [handle_error]; split <;> rfl
  · intro hnew
    rw [hc, handle_error_new st []
      (.genericError ("Ошибка API: " ++ toString code)) hnew]
    exact ⟨by simp [pyErrStr], rfl⟩
  · intro hdup
    rw [hc, handle_error_dup st []
      (.genericError ("Ошибка API: " ++ toString code)) hdup]
    exact ⟨rfl, rfl⟩

/-- Witness for C1 (amended): `bad_status_cycle` at a 404 reply against
a fresh state: the cursor stays put and the marker takes the error
text. -/
theorem bad_status_cycle_witness :
    (cycle ⟨100, none⟩ ⟨.reply 404 .null, 200⟩).timestamp = 100
    ∧ (cycle ⟨100, none⟩ ⟨.reply 404 .null, 200⟩).last_error = some "Ошибка API: 404" := by
  have h := bad_status_cycle ⟨100, none⟩ 404 .null 200 (by decide)
  exact ⟨h.2.1, ((h.2.2.2.1 (by simp)).2).trans rfl⟩

/-- Claim C3: when a cycle-level error reaches the `except` clause and
its string form differs from the `last_error` marker, exactly one error
notification is sent and the marker takes that string; if the next cycle
raises an error with the identical string, no second notification is
sent; if it raises one with a different string, a second notification is
sent and the marker is updated.  The marker is never cleared: any cycle
without a cycle-level error (successful or plain fetch failure) leaves
it untouched, so it persists across intervening successful cycles. -/
theorem error_dedup (st : LoopState) (e1 e2 : CycleEnv) (err1 err2 : PyError)
    (h1 : cycleErrorOf e1 = some err1) (h2 : cycleErrorOf e2 = some err2)
    (hnew : st.last_error ≠ some (pyErrStr err1)) :
    (cycle st e1).sent =
      parseSentOf e1 ++ ["Сбой в работе программы: " ++ pyErrStr err1]
    ∧ (cycle st e1).last_error = some (pyErrStr err1)
    ∧ (pyErrStr err2 = pyErrStr err1 →
        (cycle ⟨(cycle st e1).timestamp, (cycle st e1).last_error⟩ e2).sent
          = parseSentOf e2
        ∧ (cycle ⟨(cycle st e1).timestamp, (cycle st e1).last_error⟩ e2).last_error
          = some (pyErrStr err1))
    ∧ (pyErrStr err2 ≠ pyErrStr err1 →
        (cycle ⟨(cycle st e1).timestamp, (cycle st e1).last_error⟩ e2).sent
          = parseSentOf e2 ++ ["Сбой в работе программы: " ++ pyErrStr err2]
        ∧ (cycle ⟨(cycle st e1).timestamp, (cycle st e1).last_error⟩ e2).last_error
          = some (pyErrStr err2))
    ∧ (∀ (st₂ : LoopState) (env : CycleEnv), cycleErrorOf env = none →
        (cycle st₂ env).last_error = st₂.last_error) := by
  obtain ⟨ms1, hb1, hs1⟩ := cycleErrorOf_some h1
  obtain ⟨ms2, hb2, hs2⟩ := cycleErrorOf_some h2
  have hc1 : cycle st e1 = handle_error st ms1 err1 := by simp [cycle, hb1]
  rw [hc1, handle_error_new st ms1 err1 hnew]
  refine ⟨by rw [hs1], rfl, ?_, ?_, fun st₂ env h => cycle_no_error_marker st₂ h⟩
  · intro hsame
    have hdup : (some (pyErrStr err1) : Option String) = some (pyErrStr err2) := by
      rw [hsame]
    have hc2 : cycle (⟨st.timestamp, some (pyErrStr err1)⟩ : LoopState) e2
        = handle_error ⟨st.timestamp, some (pyErrStr err1)⟩ ms2 err2 := by
      simp [cycle, hb2]
    rw [hc2, handle_error_dup ⟨st.timestamp, some (pyErrStr err1)⟩ ms2 err2 hdup]
    exact ⟨hs2.symm, rfl⟩
  · intro hdiff
    have hfresh : (some (pyErrStr err1) : Option String) ≠ some (pyErrStr err2) := by
      intro h
      exact hdiff (Option.some_injective _ h.symm)
    have hc2 : cycle (⟨st.timestamp, some (pyErrStr err1)⟩ : LoopState) e2
        = handle_error ⟨st.timestamp, some (pyErrStr err1)⟩ ms2 err2 := by
      simp [cycle, hb2]
    rw [hc2, handle_error_new ⟨st.timestamp, some (pyErrStr err1)⟩ ms2 err2 hfresh]
    exact ⟨by rw [hs2], rfl⟩

/-- Witness for C3: two consecutive cycles both hitting the same 500
reply, starting from a fresh marker: the first sends the diagnostic, the
second sends nothing. -/
theorem error_dedup_witness :
    (cycle ⟨0, none⟩ ⟨.reply 500 .null, 7⟩).sent =
      ["Сбой в работе программы: Ошибка API: 500"]
    ∧ (cycle ⟨(cycle ⟨0, none⟩ ⟨.reply 500 .null, 7⟩).timestamp,
              (cycle ⟨0, none⟩ ⟨.reply 500 .null, 7⟩).last_error⟩
         ⟨.reply 500 .null, 7⟩).sent = [] := by
  have h := error_dedup ⟨0, none⟩ ⟨.reply 500 .null, 7⟩ ⟨.reply 500 .null, 7⟩
    (.genericError "Ошибка API: 500") (.genericError "Ошибка API: 500")
    rfl rfl (by simp)
  exact ⟨h.1.trans rfl, ((h.2.2.1 rfl).1).trans rfl⟩
